import Mathlib

/-!
Shallow embedding of the structured-logging library (`src/src/index.ts`,
whose compiled form is `src/lib/index.js`) and proofs about its pipeline:
level gating, entry construction with context merging, formatting,
filtering, fan-out to transports with per-transport failure isolation, and
the parent/child transport-registry aliasing.

Modelling conventions:
* A JS `Date` is represented by its ISO-8601 rendering, a `String`; the
  code only ever observes a timestamp through `toISOString()`.
* A context (`Record<string, unknown>`) is an association list of
  string keys to string values; JS object-spread merge appends the later
  object's entries, and property lookup is last-assignment-wins.
* A transport's `write` is a function returning `Except String Unit`:
  `.error msg` stands for a write that throws or rejects with `msg`.
  The `async` wrapper plus `try/catch` in `writeToTransports` catches both
  synchronous throws and rejections, so both collapse to `.error`.
* Promise settlement order is not modelled; `Promise.all` over the mapped
  writes is the list of per-transport outcomes in transport order.
* The mutable `transports` array is modelled twice: the dispatch model
  (`LoggerConfig`) treats it as a value, while the registry model
  (`World`/`LoggerRef`) makes the array reference explicit, because
  `child` copies the reference (`{...this.config}`) rather than the array.
-/

namespace LoggingSystem

/-- `type LogLevel = "debug" | "info" | "warn" | "error" | "fatal"`. -/
inductive LogLevel
  | debug
  | info
  | warn
  | error
  | fatal
deriving DecidableEq, Repr

/-- `LOG_LEVEL_PRIORITY`: the fixed priority table from the source. -/
def LOG_LEVEL_PRIORITY : LogLevel → Nat
  | .debug => 0
  | .info => 1
  | .warn => 2
  | .error => 3
  | .fatal => 4

/-- `entry.level.toUpperCase()` on the five level strings. -/
def LogLevel.toUpperCase : LogLevel → String
  | .debug => "DEBUG"
  | .info => "INFO"
  | .warn => "WARN"
  | .error => "ERROR"
  | .fatal => "FATAL"

/-- A `Record<string, unknown>` context, as an association list; values are
modelled as strings. JS object construction assigns entries left to right,
so later entries shadow earlier ones (see `ctxGet`). -/
abbrev Context := List (String × String)

/-- JS property lookup on an object built by assigning the list's entries in
order: the LAST assignment to a key wins. -/
def ctxGet (c : Context) (k : String) : Option String :=
  c.foldl (fun acc kv => if kv.1 = k then some kv.2 else acc) none

/-- Object spread `{...a, ...b}`: assign all of `a`'s entries, then all of
`b`'s, so `b` shadows `a` on key collisions. -/
def mergeContexts (a b : Context) : Context := a ++ b

/-- A JS `Error`: carries a message and a stack/trace text. -/
structure Err where
  message : String
  stack : String
deriving DecidableEq, Repr

/-- The `LogEntry` interface. `timestamp` is the ISO-8601 rendering of the
`Date`. Optional fields (`context?`, `error?`, `tags?`, `source?`) are
`Option`s; JS truthiness tests on them distinguish only
present (`some`) from absent (`none`). -/
structure LogEntry where
  level : LogLevel
  message : String
  timestamp : String
  context : Option Context
  error : Option Err
  tags : Option (List String)
  source : Option String
deriving DecidableEq, Repr

/-- `JSON.stringify` on a context object (values rendered as JSON strings). -/
def jsonStringify (c : Context) : String :=
  "\x7b" ++ String.intercalate ","
    (c.map (fun kv => "\"" ++ kv.1 ++ "\":\"" ++ kv.2 ++ "\"")) ++ "\x7d"

/-- `Logger.defaultFormatter`:
```
const context = entry.context ? ` ${JSON.stringify(entry.context)}` : '';
const error = entry.error ? ` ${entry.error.stack}` : '';
return `[${entry.timestamp.toISOString()}] ${entry.level.toUpperCase()}: ${entry.message}${context}${error}`;
```
Note `entry.context ?` is a truthiness test: any present object passes,
including the empty object. -/
def defaultFormatter (entry : LogEntry) : String :=
  let context := match entry.context with
    | some c => " " ++ jsonStringify c
    | none => ""
  let error := match entry.error with
    | some e => " " ++ e.stack
    | none => ""
  "[" ++ entry.timestamp ++ "] " ++ entry.level.toUpperCase ++ ": "
    ++ entry.message ++ context ++ error

/-- A `LogTransport`: `id` is its reference identity, `write` its behavior;
`.error msg` models a `write` that throws synchronously or rejects. -/
structure Transport where
  id : Nat
  write : LogEntry → Except String Unit

/-- The `LoggerConfig` held by a constructed `Logger` (after the constructor
has applied the `?? defaultFormatter` and `?? []` defaults, `formatter` and
`filters` are always present). -/
structure LoggerConfig where
  minLevel : LogLevel
  transports : List Transport
  defaultContext : Option Context
  formatter : LogEntry → String
  filters : List (LogEntry → Bool)

/-- The `Logger` constructor: fills in `formatter ?? defaultFormatter` and
`filters ?? []`. -/
def mkLogger (minLevel : LogLevel) (transports : List Transport)
    (defaultContext : Option Context)
    (formatter : Option (LogEntry → String))
    (filters : Option (List (LogEntry → Bool))) : LoggerConfig :=
  { minLevel := minLevel
    transports := transports
    defaultContext := defaultContext
    formatter := formatter.getD defaultFormatter
    filters := filters.getD [] }

/-- `Logger.shouldLog`:
`LOG_LEVEL_PRIORITY[level] >= LOG_LEVEL_PRIORITY[this.config.minLevel]`. -/
def shouldLog (cfg : LoggerConfig) (level : LogLevel) : Bool :=
  decide (LOG_LEVEL_PRIORITY level ≥ LOG_LEVEL_PRIORITY cfg.minLevel)

/-- The formatted entry built at the top of `writeToTransports`:
`{...entry, message: this.config.formatter!(entry)}`. -/
def formatEntry (cfg : LoggerConfig) (entry : LogEntry) : LogEntry :=
  { entry with message := cfg.formatter entry }

/-- The observable outcome of one transport's wrapped write: either the
transport received the entry, or its failure was caught and a diagnostic
line was emitted on the `console.error` channel. -/
inductive WriteOutcome
  | delivered (id : Nat) (entry : LogEntry)
  | reported (diagnostic : String)
deriving DecidableEq, Repr

/-- One element of the `writePromises` array:
```
async transport => {
  try { await transport.write(formattedEntry); }
  catch (error) { console.error(`Transport error: ${error}`); }
}
```
The `async` wrapper turns a synchronous throw into a rejection and the
`try/catch` catches either, so the wrapped promise always fulfills. -/
def writeOne (formattedEntry : LogEntry) (transport : Transport) : WriteOutcome :=
  match transport.write formattedEntry with
  | .ok _ => .delivered transport.id formattedEntry
  | .error error => .reported ("Transport error: " ++ error)

/-- `Logger.writeToTransports`: build the formatted entry, early-return if
any filter rejects it (`!this.config.filters!.every(...)`), otherwise map
the wrapped write over every transport and await them all. The result is
the settled outcome list, one per registered transport; the function is
total because every per-transport failure is caught. -/
def writeToTransports (cfg : LoggerConfig) (entry : LogEntry) : List WriteOutcome :=
  let formattedEntry := formatEntry cfg entry
  if cfg.filters.all (fun filter => filter formattedEntry) then
    cfg.transports.map (writeOne formattedEntry)
  else
    []

/-- The entry literal constructed inside `Logger.log`: timestamp from the
clock, context the spread merge `{...this.config.defaultContext, ...context}`
(spreading `undefined` contributes nothing), `tags: []`,
`source: 'application'`. -/
def buildEntry (cfg : LoggerConfig) (level : LogLevel) (message : String)
    (context : Option Context) (error : Option Err) (now : String) : LogEntry :=
  { level := level
    message := message
    timestamp := now
    context := some (mergeContexts (cfg.defaultContext.getD []) (context.getD []))
    error := error
    tags := some []
    source := some "application" }

/-- `Logger.log`: early-return (no entry built, nothing dispatched) when
`shouldLog` fails, otherwise build the entry and dispatch it. `now` is the
ISO rendering of `new Date()`. -/
def log (cfg : LoggerConfig) (level : LogLevel) (message : String)
    (context : Option Context) (error : Option Err) (now : String) :
    List WriteOutcome :=
  if shouldLog cfg level then
    writeToTransports cfg (buildEntry cfg level message context error now)
  else
    []

/-- `Logger.child`: `new Logger({...this.config, defaultContext: merge})`.
At the config-value level only `defaultContext` changes; the aliasing of
the `transports` array is modelled separately by `childLogger` below. -/
def childConfig (cfg : LoggerConfig) (extra : Context) : LoggerConfig :=
  { cfg with
    defaultContext := some (mergeContexts (cfg.defaultContext.getD []) extra) }

/-!
Registry model: the `transports` field of a config is a mutable JS array.
`{...this.config}` in `child` copies the array REFERENCE, not the array, so
parent and child configs can alias the same array. `addTransport` mutates
the array in place (`push`); `removeTransport` rebinds the config's field to
a fresh filtered array (`this.config.transports = ...filter(...)`).
Transports are identified by their reference identity, a `Nat`.
-/

/-- The heap of transport arrays: `arrays.get? r` is the array behind
reference `r`. -/
structure World where
  arrays : List (List Nat)
deriving DecidableEq, Repr

/-- The mutable-state part of a `Logger` relevant to the registry:
which array its config's `transports` field currently references, and its
`defaultContext`. -/
structure LoggerRef where
  transportsRef : Nat
  defaultContext : Option Context
deriving DecidableEq, Repr

/-- Dereference a logger's transport array in a world. -/
def World.arrayAt (w : World) (r : Nat) : List Nat :=
  (w.arrays.get? r).getD []

/-- `Logger.child` at the registry level:
`new Logger({...this.config, defaultContext: {...parent, ...extra}})`.
The spread copies the `transports` ARRAY REFERENCE unchanged, so the child
aliases the parent's array; only `defaultContext` is rebuilt. -/
def childLogger (lg : LoggerRef) (extra : Context) : LoggerRef :=
  { transportsRef := lg.transportsRef
    defaultContext := some (mergeContexts (lg.defaultContext.getD []) extra) }

/-- `Logger.addTransport`: `this.config.transports.push(transport)` —
in-place append on the referenced array, visible through every alias. -/
def addTransport (w : World) (lg : LoggerRef) (t : Nat) : World :=
  { arrays := w.arrays.set lg.transportsRef (w.arrayAt lg.transportsRef ++ [t]) }

/-- `Logger.removeTransport`:
`this.config.transports = this.config.transports.filter(x => x !== transport)`
— `filter` allocates a fresh array (a new reference) holding every element
whose reference identity differs from `t`, and rebinds this logger's field
to it; aliases keep the old array. -/
def removeTransport (w : World) (lg : LoggerRef) (t : Nat) : World × LoggerRef :=
  ({ arrays := w.arrays ++ [(w.arrayAt lg.transportsRef).filter (fun x => x ≠ t)] },
   { lg with transportsRef := w.arrays.length })

/-!
Spec-side definitions, used only to compare the code's formatter against the
spec's words (claim C9).
-/

/-- Modelled from the spec's words for the default formatter: the context
rendering is appended "if present and non-empty", the error text if
present. Compare with `defaultFormatter`, which is translated from the
code. -/
def specFormatterNonEmpty (entry : LogEntry) : String :=
  let context := match entry.context with
    | some c => if c.isEmpty then "" else " " ++ jsonStringify c
    | none => ""
  let error := match entry.error with
    | some e => " " ++ e.stack
    | none => ""
  "[" ++ entry.timestamp ++ "] " ++ entry.level.toUpperCase ++ ": "
    ++ entry.message ++ context ++ error

/-!
Helper lemmas about last-assignment-wins lookup over spread merges.
-/

theorem foldl_ctxGet (b : Context) (k : String) (acc : Option String) :
    List.foldl (fun a kv => if kv.1 = k then some kv.2 else a) acc b
      = match ctxGet b k with
        | some v => some v
        | none => acc := by
  induction b generalizing acc with
  | nil => simp [ctxGet]
  | cons kv rest ih =>
    simp only [ctxGet, List.foldl_cons]
    rw [ih (if kv.1 = k then some kv.2 else acc),
      ih (if kv.1 = k then some kv.2 else none)]
    cases hfold : ctxGet rest k with
    | none => by_cases hk : kv.1 = k <;> simp [hk]
    | some v => rfl

/-- Lookup over a spread merge `{...a, ...b}`: `b`'s binding wins when it
has one, else `a`'s is used. -/
theorem ctxGet_merge (a b : Context) (k : String) :
    ctxGet (mergeContexts a b) k
      = match ctxGet b k with
        | some v => some v
        | none => ctxGet a k := by
  simp only [ctxGet, mergeContexts, List.foldl_append]
  exact foldl_ctxGet b k _

/-!
Concrete sample transports, configs and entries, used by the witness
theorems below.
-/

/-- A well-behaved transport: every write fulfills. -/
def okTransport (i : Nat) : Transport := ⟨i, fun _ => .ok ()⟩

/-- A broken transport: every write throws/rejects with `msg`. -/
def failTransport (i : Nat) (msg : String) : Transport := ⟨i, fun _ => .error msg⟩

/-- A sample entry as `log` would build it. -/
def sampleEntry : LogEntry :=
  { level := .info
    message := "Application started"
    timestamp := "2024-01-01T00:00:00.000Z"
    context := some [("app", "MyApp")]
    error := none
    tags := some []
    source := some "application" }

/-- A config with one broken and one well-behaved transport and no filters. -/
def cfgPair : LoggerConfig :=
  { minLevel := .info
    transports := [failTransport 1 "boom", okTransport 2]
    defaultContext := some [("app", "MyApp")]
    formatter := defaultFormatter
    filters := [] }

/-- `cfgPair` with a filter that rejects every entry. -/
def cfgReject : LoggerConfig :=
  { cfgPair with filters := [fun _ => false] }

/-- `cfgPair` with no `defaultContext` configured. -/
def cfgNoCtx : LoggerConfig :=
  { cfgPair with defaultContext := none }

/-- An entry whose context is present but empty, as `log` builds when
neither `defaultContext` nor a call-site context is given. -/
def emptyCtxEntry : LogEntry :=
  { level := .info
    message := "m"
    timestamp := "2024-01-01T00:00:00.000Z"
    context := some []
    error := none
    tags := some []
    source := some "application" }

/-!
Claim theorems.
-/

/-- C1: for an entry that passed the gate and all filters, every registered
transport's wrapped write settles — one outcome per transport, so the
`Promise.all` inside `log` resolves; a transport whose `write` fails (by
synchronous throw or rejection, both modelled as `.error`) has its error
caught and reported as a `console.error` diagnostic line, and every
transport whose `write` succeeds still receives the formatted entry. -/
theorem transport_failure_isolated (cfg : LoggerConfig) (entry : LogEntry)
    (hfilters : cfg.filters.all (fun filter => filter (formatEntry cfg entry)) = true) :
    (writeToTransports cfg entry).length = cfg.transports.length
    ∧ ∀ t ∈ cfg.transports,
        (∀ msg, t.write (formatEntry cfg entry) = .error msg →
          WriteOutcome.reported ("Transport error: " ++ msg)
            ∈ writeToTransports cfg entry)
        ∧ (t.write (formatEntry cfg entry) = .ok () →
          WriteOutcome.delivered t.id (formatEntry cfg entry)
            ∈ writeToTransports cfg entry) := by
  constructor
  · simp [writeToTransports, hfilters]
  · intro t ht
    constructor
    · intro msg hmsg
      simp only [writeToTransports, hfilters, if_true]
      exact List.mem_map.mpr ⟨t, ht, by simp [writeOne, hmsg]⟩
    · intro hok
      simp only [writeToTransports, hfilters, if_true]
      exact List.mem_map.mpr ⟨t, ht, by simp [writeOne, hok]⟩

/-- Witness for C1: in `cfgPair`, the broken transport's failure is caught
and reported while the well-behaved transport still receives the formatted
entry. -/
theorem transport_failure_isolated_witness :
    WriteOutcome.reported ("Transport error: " ++ "boom")
      ∈ writeToTransports cfgPair sampleEntry
    ∧ WriteOutcome.delivered 2 (formatEntry cfgPair sampleEntry)
      ∈ writeToTransports cfgPair sampleEntry :=
  ⟨((transport_failure_isolated cfgPair sampleEntry rfl).2 (failTransport 1 "boom")
      (show _ ∈ [failTransport 1 "boom", okTransport 2] from List.Mem.head _)).1
      "boom" rfl,
   ((transport_failure_isolated cfgPair sampleEntry rfl).2 (okTransport 2)
      (show _ ∈ [failTransport 1 "boom", okTransport 2] from
        List.Mem.tail _ (List.Mem.head _))).2 rfl⟩

/-- C2: `shouldLog level` is true iff
`LOG_LEVEL_PRIORITY level ≥ LOG_LEVEL_PRIORITY minLevel` under the fixed
priorities debug=0, info=1, warn=2, error=3, fatal=4; and a `log` call on a
sub-threshold level early-returns with no outcome at all — for EVERY
config (hence every choice of filters, formatter and transports), no entry
is built, no filter runs and no transport write is invoked. -/
theorem shouldLog_gates_log (cfg : LoggerConfig) (L : LogLevel) (m : String)
    (c : Option Context) (e : Option Err) (now : String) :
    (shouldLog cfg L = true
      ↔ LOG_LEVEL_PRIORITY L ≥ LOG_LEVEL_PRIORITY cfg.minLevel)
    ∧ (LOG_LEVEL_PRIORITY L < LOG_LEVEL_PRIORITY cfg.minLevel →
        log cfg L m c e now = []) := by
  constructor
  · simp [shouldLog]
  · intro h
    unfold log
    rw [if_neg]
    simp only [shouldLog, decide_eq_true_eq]
    omega

/-- Witness for C2: a `debug` call against `minLevel = info` produces no
outcome. -/
theorem shouldLog_gates_log_witness :
    LOG_LEVEL_PRIORITY .debug < LOG_LEVEL_PRIORITY cfgPair.minLevel
    ∧ log cfgPair .debug "x" none none "2024-01-01T00:00:00.000Z" = [] :=
  ⟨by decide,
   (shouldLog_gates_log cfgPair .debug "x" none none
      "2024-01-01T00:00:00.000Z").2 (by decide)⟩

/-- C3: a formatted entry is dispatched iff every configured filter
predicate returns true on it: when all filters accept, every registered
transport's write is invoked on it (one outcome per transport, in order);
when any filter rejects, delivery is suppressed to ALL transports — the
outcome list is empty. -/
theorem filters_decide_delivery (cfg : LoggerConfig) (entry : LogEntry) :
    (cfg.filters.all (fun filter => filter (formatEntry cfg entry)) = true →
      writeToTransports cfg entry
        = cfg.transports.map (writeOne (formatEntry cfg entry)))
    ∧ (cfg.filters.all (fun filter => filter (formatEntry cfg entry)) = false →
      writeToTransports cfg entry = []) := by
  constructor <;> intro h <;> simp [writeToTransports, h]

/-- Witness for C3: with a filter rejecting every entry, nothing reaches
either transport of `cfgReject`. -/
theorem filters_decide_delivery_witness :
    cfgReject.filters.all (fun filter => filter (formatEntry cfgReject sampleEntry))
      = false
    ∧ writeToTransports cfgReject sampleEntry = [] :=
  ⟨rfl, (filters_decide_delivery cfgReject sampleEntry).2 rfl⟩

/-- C4: the formatted entry is a copy of the original whose `message` is
the formatter's output on the original entry, every other field unchanged;
dispatch observes the raw entry only through the formatted entry (two raw
entries with the same formatted entry dispatch identically), and whatever a
transport is handed IS the formatted entry. -/
theorem formatted_entry_observed (cfg : LoggerConfig) (entry : LogEntry) :
    (formatEntry cfg entry).message = cfg.formatter entry
    ∧ (formatEntry cfg entry).level = entry.level
    ∧ (formatEntry cfg entry).timestamp = entry.timestamp
    ∧ (formatEntry cfg entry).context = entry.context
    ∧ (formatEntry cfg entry).error = entry.error
    ∧ (formatEntry cfg entry).tags = entry.tags
    ∧ (formatEntry cfg entry).source = entry.source
    ∧ (∀ entry2 : LogEntry, formatEntry cfg entry2 = formatEntry cfg entry →
        writeToTransports cfg entry2 = writeToTransports cfg entry)
    ∧ (∀ i e2, WriteOutcome.delivered i e2 ∈ writeToTransports cfg entry →
        e2 = formatEntry cfg entry) := by
  refine ⟨rfl, rfl, rfl, rfl, rfl, rfl, rfl, ?_, ?_⟩
  · intro entry2 h
    simp only [writeToTransports]
    rw [h]
  · intro i e2 hmem
    simp only [writeToTransports] at hmem
    split at hmem
    · rcases List.mem_map.mp hmem with ⟨t, ht, hw⟩
      unfold writeOne at hw
      split at hw
      · injection hw with h1 h2
        exact h2.symm
      · exact absurd hw (by simp)
    · exact absurd hmem (List.not_mem_nil _)

/-- Witness for C4: in `cfgPair`, the entry delivered to the well-behaved
transport is exactly the formatted copy of `sampleEntry`. -/
theorem formatted_entry_observed_witness :
    (formatEntry cfgPair sampleEntry).message = cfgPair.formatter sampleEntry
    ∧ formatEntry cfgPair sampleEntry = formatEntry cfgPair sampleEntry :=
  ⟨(formatted_entry_observed cfgPair sampleEntry).1,
   (formatted_entry_observed cfgPair sampleEntry).2.2.2.2.2.2.2.2 2
      (formatEntry cfgPair sampleEntry)
      (by simp [writeToTransports, writeOne, cfgPair, okTransport, failTransport])⟩

/-- C5: the constructed entry's context is the spread merge of
`config.defaultContext` followed by the call-site context, and lookup on
that merge resolves every key bound in the call-site context to the
call-site value, falling back to the default context otherwise. -/
theorem context_merge_call_site_wins (cfg : LoggerConfig) (L : LogLevel)
    (m : String) (c : Option Context) (e : Option Err) (now : String)
    (k : String) :
    (buildEntry cfg L m c e now).context
      = some (mergeContexts (cfg.defaultContext.getD []) (c.getD []))
    ∧ ctxGet (mergeContexts (cfg.defaultContext.getD []) (c.getD [])) k
      = match ctxGet (c.getD []) k with
        | some v => some v
        | none => ctxGet (cfg.defaultContext.getD []) k :=
  ⟨rfl, ctxGet_merge _ _ k⟩

/-- C6: the claim says `child` makes a fresh structural copy of the
parent's transport list, so a later `addTransport` on the parent leaves the
child's list unchanged. The code spreads `{...this.config}`, which copies
the ARRAY REFERENCE: starting from a parent with an empty transport array,
deriving a child and then calling `addTransport` on the parent makes the
transport visible through the child as well. -/
theorem child_transports_aliased :
    (addTransport (World.mk [[]]) (LoggerRef.mk 0 none) 5).arrayAt
        (childLogger (LoggerRef.mk 0 none) []).transportsRef = [5]
    ∧ (World.mk [[]]).arrayAt
        (childLogger (LoggerRef.mk 0 none) []).transportsRef = [] := by
  decide

/-- C7: `child(extra)` yields a logger whose `defaultContext` is the merge
of the parent's default context with `extra` (extra wins); a log call on
the child whose call-site context does not bind `k` shows `extra`'s value
for `k`, while the parent's own log calls (when neither its default context
nor the call-site context binds `k`) do not. -/
theorem child_context_inherited (cfg : LoggerConfig) (extra : Context)
    (k v : String) (hk : ctxGet extra k = some v) (L : LogLevel) (m : String)
    (e : Option Err) (now : String) :
    (childConfig cfg extra).defaultContext
      = some (mergeContexts (cfg.defaultContext.getD []) extra)
    ∧ (∀ callCtx : Option Context, ctxGet (callCtx.getD []) k = none →
        ctxGet ((buildEntry (childConfig cfg extra) L m callCtx e now).context.getD [])
          k = some v)
    ∧ (∀ callCtx : Option Context, ctxGet (callCtx.getD []) k = none →
        ctxGet (cfg.defaultContext.getD []) k = none →
        ctxGet ((buildEntry cfg L m callCtx e now).context.getD []) k = none) := by
  refine ⟨rfl, ?_, ?_⟩
  · intro callCtx hcc
    simp only [buildEntry, childConfig, Option.getD_some, ctxGet_merge, hcc, hk]
  · intro callCtx hcc hd
    simp only [buildEntry, Option.getD_some, ctxGet_merge, hcc, hd]

/-- Witness for C7: `child({userId: "123"})` of `cfgPair` shows
`userId: "123"` in a logged entry's context while the parent's own log call
does not bind `userId`. -/
theorem child_context_inherited_witness :
    ctxGet [("userId", "123")] "userId" = some "123"
    ∧ ctxGet ((buildEntry (childConfig cfgPair [("userId", "123")]) .error
        "Failed to save" none none "T").context.getD []) "userId" = some "123"
    ∧ ctxGet ((buildEntry cfgPair .error "Failed to save" none none
        "T").context.getD []) "userId" = none :=
  ⟨by decide,
   (child_context_inherited cfgPair [("userId", "123")] "userId" "123"
      (by decide) .error "Failed to save" none "T").2.1 none (by decide),
   (child_context_inherited cfgPair [("userId", "123")] "userId" "123"
      (by decide) .error "Failed to save" none "T").2.2 none (by decide)
      (by decide)⟩

theorem get?_concat_length_eq {α : Type} (l : List α) (a : α) :
    (l ++ [a]).get? l.length = some a := by
  induction l with
  | nil => rfl
  | cons x xs ih => simp [ih]

/-- C8: `removeTransport` keeps exactly the elements whose reference
identity differs from the given transport (removal by identity, not value
equality); when the transport is not in the list, the resulting list —
hence its count — is unchanged, and the call is total (no failure). -/
theorem removeTransport_identity_noop (w : World) (lg : LoggerRef) (t : Nat) :
    ((removeTransport w lg t).1.arrayAt (removeTransport w lg t).2.transportsRef
      = (w.arrayAt lg.transportsRef).filter (fun x => x ≠ t))
    ∧ (t ∉ w.arrayAt lg.transportsRef →
        (removeTransport w lg t).1.arrayAt (removeTransport w lg t).2.transportsRef
          = w.arrayAt lg.transportsRef) := by
  have hfilter : (removeTransport w lg t).1.arrayAt
      (removeTransport w lg t).2.transportsRef
      = (w.arrayAt lg.transportsRef).filter (fun x => x ≠ t) := by
    simp only [removeTransport, World.arrayAt]
    rw [get?_concat_length_eq]
    rfl
  refine ⟨hfilter, fun hnot => ?_⟩
  rw [hfilter]
  apply List.filter_eq_self.mpr
  intro a ha
  simp only [ne_eq, decide_eq_true_eq]
  exact fun hat => hnot (hat ▸ ha)

/-- Witness for C8: removing the unregistered transport `7` from a list
holding `1` and `2` leaves the list — and its count — unchanged. -/
theorem removeTransport_identity_noop_witness :
    (7 : Nat) ∉ (World.mk [[1, 2]]).arrayAt 0
    ∧ (removeTransport (World.mk [[1, 2]]) (LoggerRef.mk 0 none) 7).1.arrayAt
        (removeTransport (World.mk [[1, 2]]) (LoggerRef.mk 0 none) 7).2.transportsRef
      = (World.mk [[1, 2]]).arrayAt 0 :=
  ⟨by decide,
   (removeTransport_identity_noop (World.mk [[1, 2]]) (LoggerRef.mk 0 none) 7).2
      (by decide)⟩

/-- C9 counterexample: the claim says the context rendering is appended
only when the context is present AND non-empty, but the code's truthiness
test `entry.context ?` accepts a present-but-empty object: on such an
entry `defaultFormatter` appends a trailing " \x7b\x7d" where the claimed
format has none. -/
theorem defaultFormatter_empty_context_counterexample :
    defaultFormatter emptyCtxEntry
      = "[2024-01-01T00:00:00.000Z] INFO: m \x7b\x7d"
    ∧ specFormatterNonEmpty emptyCtxEntry
      = "[2024-01-01T00:00:00.000Z] INFO: m"
    ∧ defaultFormatter emptyCtxEntry ≠ specFormatterNonEmpty emptyCtxEntry := by
  refine ⟨by decide, by decide, by decide⟩

/-- C9 amended: the default formatter produces
`[<timestamp>] <LEVEL upper-cased>: <message>`, then the space-prefixed
JSON rendering of the context whenever the context is PRESENT (including
the empty rendering when it is present but empty), then the space-prefixed
error stack whenever an error is present. -/
theorem defaultFormatter_shape (e : LogEntry) :
    (e.context = none → e.error = none →
      defaultFormatter e
        = "[" ++ e.timestamp ++ "] " ++ e.level.toUpperCase ++ ": " ++ e.message)
    ∧ (∀ c, e.context = some c → e.error = none →
      defaultFormatter e
        = "[" ++ e.timestamp ++ "] " ++ e.level.toUpperCase ++ ": " ++ e.message
          ++ " " ++ jsonStringify c)
    ∧ (∀ c err, e.context = some c → e.error = some err →
      defaultFormatter e
        = "[" ++ e.timestamp ++ "] " ++ e.level.toUpperCase ++ ": " ++ e.message
          ++ " " ++ jsonStringify c ++ " " ++ err.stack)
    ∧ (∀ err, e.context = none → e.error = some err →
      defaultFormatter e
        = "[" ++ e.timestamp ++ "] " ++ e.level.toUpperCase ++ ": " ++ e.message
          ++ " " ++ err.stack) := by
  refine ⟨?_, ?_, ?_, ?_⟩
  · intro hc he
    simp [defaultFormatter, hc, he]
  · intro c hc he
    simp [defaultFormatter, hc, he, String.append_assoc]
  · intro c err hc he
    simp [defaultFormatter, hc, he, String.append_assoc]
  · intro err hc he
    simp [defaultFormatter, hc, he, String.append_assoc]

/-- Witness for C9's amended theorem: the shape on `sampleEntry`, whose
context is present and error absent. -/
theorem defaultFormatter_shape_witness :
    defaultFormatter sampleEntry
      = "[" ++ sampleEntry.timestamp ++ "] " ++ sampleEntry.level.toUpperCase
        ++ ": " ++ sampleEntry.message ++ " " ++ jsonStringify [("app", "MyApp")] :=
  (defaultFormatter_shape sampleEntry).2.1 [("app", "MyApp")] rfl rfl

/-- C10: whenever the gate passes, `log` dispatches exactly the entry built
by `buildEntry`, and that entry's `context` is always a present mapping —
the empty mapping when neither `defaultContext` nor a call-site context is
given — its `tags` always the present empty sequence, and its `source`
always the present string "application". -/
theorem entry_defaults_present (cfg : LoggerConfig) (L : LogLevel) (m : String)
    (c : Option Context) (e : Option Err) (now : String) :
    (shouldLog cfg L = true →
      log cfg L m c e now = writeToTransports cfg (buildEntry cfg L m c e now))
    ∧ ((buildEntry cfg L m c e now).context).isSome = true
    ∧ (cfg.defaultContext = none → c = none →
        (buildEntry cfg L m c e now).context = some [])
    ∧ (buildEntry cfg L m c e now).tags = some []
    ∧ (buildEntry cfg L m c e now).source = some "application" := by
  refine ⟨?_, rfl, ?_, rfl, rfl⟩
  · intro h
    simp [log, h]
  · intro hd hc
    simp [buildEntry, hd, hc, mergeContexts]

/-- Witness for C10: with no default context and no call-site context, the
built entry's context is the present empty mapping. -/
theorem entry_defaults_present_witness :
    (buildEntry cfgNoCtx .info "m" none none "T").context = some []
    ∧ log cfgNoCtx .info "m" none none "T"
      = writeToTransports cfgNoCtx (buildEntry cfgNoCtx .info "m" none none "T") :=
  ⟨(entry_defaults_present cfgNoCtx .info "m" none none "T").2.2.1 rfl rfl,
   (entry_defaults_present cfgNoCtx .info "m" none none "T").1 (by decide)⟩

end LoggingSystem
